import Mathlib

/-!
Verification development for the oauth_kit repository.

Strings of the TypeScript source are modelled as lists of characters
(`Str`), JavaScript `Record<string,string>` parameter maps as functions
`Str → Option Str`, the browser `localStorage` slots touched by the mock
providers as an explicit `Storage` record, and the demo provider's
in-memory `Map`s as association lists.  JavaScript truthiness on optional
strings (absent or empty both falsy) is modelled by `truthyOpt`.

Every definition is translated from the source files:
  - src/unnamed/part_003          (despia-handler: isDespiaNative, createDespiaDeeplink)
  - src/packages/core/oauth-manager.ts  (OAuthManager)
  - src/unnamed/part_002          (MockProvider)
  - src/demo/src/providers/client-side-mock-provider.ts (ClientSideMockProvider)
  - src/demo-provider/routes/token.ts   (tokenHandler, authorizeHandler, authorizePostHandler)
-/

set_option maxHeartbeats 1000000

namespace OAuthKit

/-- Strings are modelled as lists of characters. -/
abbrev Str := List Char

/-- Embed a Lean string literal into the model. -/
def str (s : String) : Str := s.data

/-- JavaScript truthiness for an optional string value: `undefined`/`null`
and the empty string are falsy; any other string is kept. -/
def truthyOpt : Option Str → Option Str
  | some s => if s = [] then none else some s
  | none => none

/-- JavaScript `x || ''` on an optional string. -/
def jsOrEmpty (o : Option Str) : Str := (truthyOpt o).getD []

/-- Uppercase hexadecimal digit, as produced by percent-encoding. -/
def hexDigit (n : Nat) : Char :=
  Char.ofNat (if n < 10 then 48 + n else 55 + n)

/-- UTF-8 byte sequence of a character (standard encoding on code points). -/
def utf8Bytes (c : Char) : List Nat :=
  let n := c.toNat
  if n < 128 then [n]
  else if n < 2048 then [192 + n / 64, 128 + n % 64]
  else if n < 65536 then [224 + n / 4096, 128 + (n / 64) % 64, 128 + n % 64]
  else [240 + n / 262144, 128 + (n / 4096) % 64, 128 + (n / 64) % 64, 128 + n % 64]

/-- Bytes kept verbatim by `URLSearchParams` serialization
(application/x-www-form-urlencoded): ASCII alphanumerics and `*`, `-`, `.`, `_`. -/
def formUnreserved (b : Nat) : Bool :=
  (48 ≤ b && b ≤ 57) || (65 ≤ b && b ≤ 90) || (97 ≤ b && b ≤ 122) ||
  b == 42 || b == 45 || b == 46 || b == 95

/-- One byte of `URLSearchParams` output: kept, `+` for space, else `%XX`. -/
def encodeByteForm (b : Nat) : Str :=
  if formUnreserved b then [Char.ofNat b]
  else if b == 32 then ['+']
  else ['%', hexDigit (b / 16), hexDigit (b % 16)]

/-- `URLSearchParams` encoding of one string value. -/
def urlEncodeForm (s : Str) : Str :=
  s.flatMap (fun c => (utf8Bytes c).flatMap encodeByteForm)

/-- `new URLSearchParams(params).toString()`: `k=v` pairs joined by `&`,
keys and values form-encoded, in insertion order. -/
def urlEncodeParams (ps : List (Str × Str)) : Str :=
  List.intercalate ['&'] (ps.map (fun p => urlEncodeForm p.1 ++ ['='] ++ urlEncodeForm p.2))

/-- Bytes kept verbatim by JavaScript `encodeURIComponent`:
ASCII alphanumerics and `-`, `_`, `.`, `!`, `~`, `*`, `(`, `)`, and the
apostrophe (code 39). -/
def uriUnreserved (b : Nat) : Bool :=
  (48 ≤ b && b ≤ 57) || (65 ≤ b && b ≤ 90) || (97 ≤ b && b ≤ 122) ||
  b == 33 || b == 39 || b == 40 || b == 41 || b == 42 || b == 45 ||
  b == 46 || b == 95 || b == 126

/-- JavaScript `encodeURIComponent` (space becomes `%20`, not `+`). -/
def encodeURIComponent (s : Str) : Str :=
  s.flatMap (fun c => (utf8Bytes c).flatMap
    (fun b => if uriUnreserved b then [Char.ofNat b]
              else ['%', hexDigit (b / 16), hexDigit (b % 16)]))

/-- src/unnamed/part_003 `createDespiaDeeplink`:
`const query = new URLSearchParams(params).toString();`
`const cleanPath = path.replace(/^\//, '');`  (one leading slash at most)
`return scheme + "://oauth/" + cleanPath + "?" + query;` -/
def createDespiaDeeplink (path : Str) (params : List (Str × Str)) (scheme : Str) : Str :=
  let query := urlEncodeParams params
  let cleanPath := match path with
    | '/' :: rest => rest
    | _ => path
  scheme ++ str "://oauth/" ++ cleanPath ++ ['?'] ++ query

/-- The deeplink format as worded by the spec: output is
`scheme://oauth/` followed by the path with one leading slash stripped,
then `?` and the form-encoded parameters. -/
def specDeeplink (path : Str) (params : List (Str × Str)) (scheme : Str) : Str :=
  scheme ++ str "://oauth/" ++ (if path.head? = some '/' then path.tail else path)
    ++ ['?'] ++ urlEncodeParams params

/-- src/packages/core/oauth-manager.ts constructor:
`this.appUrl = config.appUrl.replace(/\/$/, '');` — the non-global regex
removes at most one trailing slash. -/
def stripTrailingSlash (s : Str) : Str :=
  if s.getLast? = some '/' then s.dropLast else s

/-- Decimal rendering of a natural number, as JavaScript
`expiresAt.toString()` produces for the non-negative integers stored by
`setSession`.  The first argument is structural fuel (`n` itself suffices). -/
def natToStrAux : Nat → Nat → Str
  | 0, _ => []
  | _ + 1, 0 => []
  | fuel + 1, n + 1 =>
    natToStrAux fuel ((n + 1) / 10) ++ [Char.ofNat (48 + (n + 1) % 10)]

/-- Decimal rendering of a natural number ("0" for zero). -/
def natToStr (n : Nat) : Str :=
  if n = 0 then ['0'] else natToStrAux n n

/-- JavaScript `parseInt(s, 10)` restricted to all-digit inputs, which is
the only shape `setSession` ever stores. -/
def parseDigits (s : Str) : Nat :=
  s.foldl (fun acc c => acc * 10 + (c.toNat - 48)) 0

/-- src/unnamed/part_004 `TokenSet`. -/
structure TokenSet where
  access_token : Str
  refresh_token : Option Str
  expires_in : Option Nat
deriving DecidableEq

/-- src/unnamed/part_004 `AuthResult` (open-ended extra fields and the
optional `user` are not read by the orchestrator and are not modelled). -/
structure AuthResult where
  access_token : Str
  refresh_token : Option Str
  expires_in : Option Nat
deriving DecidableEq

/-- src/unnamed/part_004 `User` (open-ended extension fields omitted). -/
structure User where
  id : Str
  email : Option Str
  name : Option Str
  avatar_url : Option Str
deriving DecidableEq

/-- src/unnamed/part_004 `Session`. -/
structure Session where
  access_token : Str
  refresh_token : Option Str
  expires_at : Option Nat
  user : User
deriving DecidableEq

/-- Callback parameters: JavaScript `Record<string, string>`, a key either
absent (`none`) or mapped to a string. -/
abbrev CallbackParams := Str → Option Str

/-- The three `localStorage` slots used by `MockProvider` and
`ClientSideMockProvider`; `none` models an absent key (getItem null). -/
structure Storage where
  access_token : Option Str
  refresh_token : Option Str
  expires_at : Option Str
deriving DecidableEq

/-- Storage with no keys set. -/
def Storage.empty : Storage := ⟨none, none, none⟩

/-- Outcome of the `fetch` to the userinfo endpoint inside
`MockProvider.getSession`: network failure (fetch rejects), a non-ok
status, or an ok response carrying the user JSON. -/
inductive UserinfoOutcome where
  | netError
  | badStatus
  | ok (user : User)
deriving DecidableEq

namespace MockProvider

/-- src/unnamed/part_002 `MockProvider.setSession` (storage available):
always writes `oauth_access_token`; writes `oauth_refresh_token` only when
`tokens.refresh_token` is truthy; writes `oauth_expires_at` as the decimal
string of `Date.now() + expires_in * 1000` only when `tokens.expires_in`
is truthy (so `0` writes nothing). -/
def setSession (now : Nat) (tokens : TokenSet) (st : Storage) : Storage :=
  { access_token := some tokens.access_token
    refresh_token :=
      match truthyOpt tokens.refresh_token with
      | some r => some r
      | none => st.refresh_token
    expires_at :=
      match tokens.expires_in with
      | some e => if e = 0 then st.expires_at else some (natToStr (now + e * 1000))
      | none => st.expires_at }

/-- src/unnamed/part_002 `MockProvider.signOut` (storage available):
removes all three keys. -/
def signOut (_st : Storage) : Storage := Storage.empty

/-- src/unnamed/part_002 `MockProvider.getSession` (storage available):
returns `null` when `oauth_access_token` is absent or empty; on a non-ok
userinfo response calls `signOut()` and returns `null`; on a fetch
rejection returns `null` leaving storage as is; otherwise builds the
session, with `refresh_token` read back through `|| undefined` and
`expires_at` through `expiresAt ? parseInt(expiresAt, 10) : undefined`.
The pair returned is (storage afterwards, result). -/
def getSession (st : Storage) (userinfo : Str → UserinfoOutcome) :
    Storage × Option Session :=
  match truthyOpt st.access_token with
  | none => (st, none)
  | some tok =>
    match userinfo tok with
    | .netError => (st, none)
    | .badStatus => (Storage.empty, none)
    | .ok u =>
      (st, some
        { access_token := tok
          refresh_token := truthyOpt st.refresh_token
          expires_at :=
            match truthyOpt st.expires_at with
            | some s => some (parseDigits s)
            | none => none
          user := u })

/-- src/unnamed/part_002 `MockProvider.handleCallback`:
throws `error_description || error` when `params.error` is truthy, throws
when `params.code` is falsy, otherwise exchanges the code (the `fetch` to
the token endpoint, including its non-ok and JSON handling, is abstracted
as `exchange code redirectUri`, where `redirectUri` is
`params.redirect_uri || ''`). -/
def handleCallback (exchange : Str → Str → Except Str AuthResult)
    (params : CallbackParams) : Except Str AuthResult :=
  match truthyOpt (params (str "error")) with
  | some e => .error ((truthyOpt (params (str "error_description"))).getD e)
  | none =>
    match truthyOpt (params (str "code")) with
    | none => .error (str "No authorization code in callback")
    | some code => exchange code (jsOrEmpty (params (str "redirect_uri")))

end MockProvider

/-- src/demo/src/providers/client-side-mock-provider.ts
`ClientSideMockProvider.setSession` — textually identical logic to
`MockProvider.setSession`. -/
def ClientSideMockProvider.setSession (now : Nat) (tokens : TokenSet) (st : Storage) : Storage :=
  { access_token := some tokens.access_token
    refresh_token :=
      match truthyOpt tokens.refresh_token with
      | some r => some r
      | none => st.refresh_token
    expires_at :=
      match tokens.expires_in with
      | some e => if e = 0 then st.expires_at else some (natToStr (now + e * 1000))
      | none => st.expires_at }

namespace OAuthManager

/-- src/packages/core/oauth-manager.ts `WEB_CALLBACK_PATH`. -/
def WEB_CALLBACK_PATH : Str := str "/auth/callback"

/-- src/packages/core/oauth-manager.ts `NATIVE_CALLBACK_PATH`. -/
def NATIVE_CALLBACK_PATH : Str := str "/native-callback"

/-- src/packages/core/oauth-manager.ts `signIn`, the redirect URI it
passes to `provider.getOAuthUrl`:
`isNative ? appUrl + NATIVE_CALLBACK_PATH : appUrl + WEB_CALLBACK_PATH`
(with `appUrl` the constructor-normalized base URL). -/
def signInRedirectUri (appUrl : Str) (isNative : Bool) : Str :=
  if isNative then appUrl ++ NATIVE_CALLBACK_PATH else appUrl ++ WEB_CALLBACK_PATH

/-- src/packages/core/oauth-manager.ts `handleCallback`.
`providerCb` is `provider.handleCallback` (rejection modelled as
`Except.error` carrying the error message), `setSess` is
`provider.setSession` acting on the storage state.  The result pair is
(the resolved `redirectUrl`, storage afterwards).  The `try/catch`
surrounds the whole body, so a provider rejection reaches neither
`setSession` nor the success branches. -/
def handleCallback (appUrl scheme : Str)
    (providerCb : CallbackParams → Except Str AuthResult)
    (setSess : TokenSet → Storage → Storage)
    (params : CallbackParams) (isNative : Bool) (st : Storage) : Str × Storage :=
  match providerCb params with
  | .ok result =>
    let st2 := setSess ⟨result.access_token, result.refresh_token, result.expires_in⟩ st
    if isNative then
      let deeplinkParams := (str "access_token", result.access_token) ::
        (match truthyOpt result.refresh_token with
         | some rt => [(str "refresh_token", rt)]
         | none => [])
      (createDespiaDeeplink (str "callback") deeplinkParams scheme, st2)
    else
      (appUrl ++ WEB_CALLBACK_PATH, st2)
  | .error msg =>
    if isNative then
      (createDespiaDeeplink (str "callback") [(str "error", msg)] scheme, st)
    else
      (appUrl ++ WEB_CALLBACK_PATH ++ str "?error=" ++ encodeURIComponent msg, st)

end OAuthManager

/-- One record of the demo provider's in-memory `authCodes` map
(src/demo-provider/routes, authorize handlers). -/
structure AuthCodeEntry where
  code : Str
  redirectUri : Str
  expiresAt : Nat
deriving DecidableEq

/-- One record of the demo provider's in-memory `tokens` map
(src/demo-provider/routes/token.ts). -/
structure TokenEntry where
  accessToken : Str
  refreshToken : Str
  expiresAt : Nat
deriving DecidableEq

/-- JavaScript `Map<string, V>` modelled as an association list. -/
abbrev StoreMap (V : Type) := List (Str × V)

/-- `map.get(k)`. -/
def storeLookup {V : Type} : StoreMap V → Str → Option V
  | [], _ => none
  | p :: rest, k => if p.1 = k then some p.2 else storeLookup rest k

/-- `map.delete(k)`. -/
def storeErase {V : Type} : StoreMap V → Str → StoreMap V
  | [], _ => []
  | p :: rest, k => if p.1 = k then storeErase rest k else p :: storeErase rest k

/-- `map.set(k, v)`. -/
def storeSet {V : Type} (store : StoreMap V) (k : Str) (v : V) : StoreMap V :=
  storeErase store k ++ [(k, v)]

/-- Responses of the demo provider's `POST /authorize` handler. -/
inductive AuthorizeResult where
  | badRequest (body : Str)
  | redirectTo (location : Str)
deriving DecidableEq

/-- Responses of the demo provider's `GET /authorize` handler: a 400 text
or the rendered login form (modelled by the code, state and redirect URI
baked into its hidden fields). -/
inductive AuthorizeGetResult where
  | badRequest (body : Str)
  | htmlForm (code : Str) (state : Str) (redirectUri : Str)
deriving DecidableEq

/-- Responses of the demo provider's `POST /token` handler. -/
inductive TokenResult where
  | badRequest (error : Str) (error_description : Option Str)
  | ok (access_token : Str) (refresh_token : Str) (token_type : Str) (expires_in : Nat)
deriving DecidableEq

/-- src/demo-provider/routes (authorize), `authorizeHandler` (GET):
rejects when `client_id`, `redirect_uri` or `response_type` is falsy or
when `response_type` is not `code`; otherwise stores the freshly generated
code with a 10-minute expiry (`Date.now() + 10 * 60 * 1000`) and renders
the login form.  The random code generation is abstracted as the `code`
argument; `now` is `Date.now()`. -/
def authorizeHandler (client_id redirect_uri response_type state scope : Option Str)
    (now : Nat) (code : Str) (store : StoreMap AuthCodeEntry) :
    AuthorizeGetResult × StoreMap AuthCodeEntry :=
  match truthyOpt client_id, truthyOpt redirect_uri, truthyOpt response_type with
  | some _, some ru, some rt =>
    if rt = str "code" then
      (.htmlForm code (jsOrEmpty state) ru,
        storeSet store code ⟨code, ru, now + 10 * 60 * 1000⟩)
    else
      (.badRequest (str "Only authorization code flow is supported"), store)
  | _, _, _ => (.badRequest (str "Missing required parameters"), store)

/-- src/demo-provider/routes (authorize), `authorizePostHandler` (POST):
rejects when `code` or `redirect_uri` is falsy; rejects an unknown code;
rejects (and deletes) an expired code; otherwise deletes the code
(one-time use) and redirects to
`redirect_uri?` followed by `URLSearchParams({code, state: state || ''})`. -/
def authorizePostHandler (code state redirect_uri : Option Str) (now : Nat)
    (store : StoreMap AuthCodeEntry) : AuthorizeResult × StoreMap AuthCodeEntry :=
  match truthyOpt code with
  | none => (.badRequest (str "Missing required parameters"), store)
  | some c =>
    match truthyOpt redirect_uri with
    | none => (.badRequest (str "Missing required parameters"), store)
    | some ru =>
      match storeLookup store c with
      | none => (.badRequest (str "Invalid authorization code"), store)
      | some entry =>
        if now > entry.expiresAt then
          (.badRequest (str "Authorization code expired"), storeErase store c)
        else
          (.redirectTo (ru ++ ['?'] ++
              urlEncodeParams [(str "code", c), (str "state", jsOrEmpty state)]),
            storeErase store c)

/-- src/demo-provider/routes/token.ts `tokenHandler` (POST /token):
rejects a `grant_type` other than `authorization_code`; rejects a falsy
`code`; otherwise mints fresh tokens (the random generation is abstracted
as the `accessToken`/`refreshToken` arguments), stores them keyed by the
access token with a one-hour expiry, and returns them with
`expires_in = 3600`.  Note it never reads the `authCodes` store: the
submitted `code` is not looked up, checked for reuse, or checked for
expiry here. -/
def tokenHandler (code grant_type redirect_uri client_id : Option Str) (now : Nat)
    (accessToken refreshToken : Str) (store : StoreMap TokenEntry) :
    TokenResult × StoreMap TokenEntry :=
  if grant_type ≠ some (str "authorization_code") then
    (.badRequest (str "unsupported_grant_type") none, store)
  else
    match truthyOpt code with
    | none => (.badRequest (str "invalid_request") (some (str "Missing code")), store)
    | some _ =>
      (.ok accessToken refreshToken (str "Bearer") 3600,
        storeSet store accessToken ⟨accessToken, refreshToken, now + 3600 * 1000⟩)

/-! ### Helper lemmas -/

theorem char_digit_roundtrip (d : Nat) (hd : d < 10) :
    (Char.ofNat (48 + d)).toNat - 48 = d := by
  interval_cases d <;> decide

theorem parse_natToStrAux (fuel : Nat) :
    ∀ n acc, n ≤ fuel →
      List.foldl (fun acc c => acc * 10 + (c.toNat - 48)) acc (natToStrAux fuel n) =
        acc * 10 ^ (natToStrAux fuel n).length + n := by
  induction fuel with
  | zero =>
    intro n acc hn
    interval_cases n
    simp [natToStrAux]
  | succ fuel ih =>
    intro n acc hn
    match n with
    | 0 => simp [natToStrAux]
    | m + 1 =>
      have hdiv : (m + 1) / 10 < m + 1 := Nat.div_lt_self (Nat.succ_pos m) (by norm_num)
      have hfuel : (m + 1) / 10 ≤ fuel := by omega
      have hmod : (m + 1) % 10 < 10 := Nat.mod_lt _ (by norm_num)
      have hchar := char_digit_roundtrip ((m + 1) % 10) hmod
      have hdm : 10 * ((m + 1) / 10) + (m + 1) % 10 = m + 1 := Nat.div_add_mod (m + 1) 10
      simp only [natToStrAux, List.foldl_append, List.length_append, List.foldl_cons,
        List.foldl_nil, List.length_cons, List.length_nil]
      rw [ih ((m + 1) / 10) acc hfuel, hchar]
      rw [pow_succ]
      ring_nf
      omega

theorem parse_natToStr (n : Nat) : parseDigits (natToStr n) = n := by
  by_cases h : n = 0
  · subst h
    decide
  · unfold natToStr parseDigits
    rw [if_neg h]
    have := parse_natToStrAux n n 0 (le_refl n)
    simpa using this

theorem natToStrAux_ne_nil (fuel n : Nat) (h1 : 1 ≤ n) (h2 : n ≤ fuel) :
    natToStrAux fuel n ≠ [] := by
  cases fuel with
  | zero => omega
  | succ f =>
    cases n with
    | zero => omega
    | succ m => simp [natToStrAux]

theorem natToStr_ne_nil (n : Nat) : natToStr n ≠ [] := by
  by_cases h : n = 0
  · subst h
    decide
  · unfold natToStr
    rw [if_neg h]
    exact natToStrAux_ne_nil n n (by omega) (le_refl n)

theorem storeLookup_erase_self {V : Type} (store : StoreMap V) (k : Str) :
    storeLookup (storeErase store k) k = none := by
  induction store with
  | nil => rfl
  | cons hd tl ih =>
    by_cases h : hd.1 = k
    · simp [storeErase, h, ih]
    · simp [storeErase, storeLookup, h, ih]

/-! ### Claim theorems -/

/-- C6: for all (path, params, scheme) the deeplink builder output equals
`scheme://oauth/` + (path with exactly one leading slash stripped when
present) + `?` + the form-encoded parameters; the function is pure and
total, with no failure mode for any input. -/
theorem createDespiaDeeplink_matches_spec (path : Str) (params : List (Str × Str))
    (scheme : Str) :
    createDespiaDeeplink path params scheme = specDeeplink path params scheme := by
  cases path with
  | nil => rfl
  | cons c rest =>
    by_cases h : c = '/'
    · subst h
      rfl
    · simp only [createDespiaDeeplink, specDeeplink, List.head?, List.tail_cons]
      rw [if_neg (by simp [h])]
      congr 2
      split
      · next r heq =>
        rw [List.cons.injEq] at heq
        exact absurd heq.1 h
      · rfl

/-- C7 counterexample: the constructor normalization
`appUrl.replace(/\/$/, '')` removes only one trailing slash, so an input
ending in two slashes is stored still ending in a slash, contrary to the
claim that the stored value never ends in a slash for any input. -/
theorem stripTrailingSlash_double_slash_counterexample :
    stripTrailingSlash (str "https://app.example//") = str "https://app.example/" ∧
    (stripTrailingSlash (str "https://app.example//")).getLast? = some '/' := by
  constructor
  · decide
  · decide

/-- C7 (amended): the constructor removes exactly one trailing slash when
one is present; the stored `appBaseUrl` ends in a slash precisely when the
configured string ended in at least two slashes (so for inputs with at
most one trailing slash the stored value never ends in a slash). -/
theorem stripTrailingSlash_no_trailing_iff (s : Str) :
    (stripTrailingSlash s).getLast? = some '/' ↔
      (s.getLast? = some '/' ∧ s.dropLast.getLast? = some '/') := by
  by_cases h : s.getLast? = some '/'
  · simp [stripTrailingSlash, h]
  · simp [stripTrailingSlash, h]

/-- C8: the redirect URI `signIn` hands to `provider.getOAuthUrl` is
`appBaseUrl ++ "/native-callback"` when the native shell is detected and
`appBaseUrl ++ "/auth/callback"` otherwise; each ends in the respective
path, and no value outside these two is ever produced. -/
theorem signInRedirectUri_cases (appUrl : Str) (isNative : Bool) :
    (isNative = false →
      OAuthManager.signInRedirectUri appUrl isNative = appUrl ++ str "/auth/callback") ∧
    (isNative = true →
      OAuthManager.signInRedirectUri appUrl isNative = appUrl ++ str "/native-callback") ∧
    (str "/auth/callback" <:+ OAuthManager.signInRedirectUri appUrl false) ∧
    (str "/native-callback" <:+ OAuthManager.signInRedirectUri appUrl true) ∧
    (OAuthManager.signInRedirectUri appUrl isNative = appUrl ++ str "/auth/callback" ∨
      OAuthManager.signInRedirectUri appUrl isNative = appUrl ++ str "/native-callback") := by
  refine ⟨?_, ?_, ?_, ?_, ?_⟩
  · intro h
    subst h
    rfl
  · intro h
    subst h
    rfl
  · exact List.suffix_append appUrl (str "/auth/callback")
  · exact List.suffix_append appUrl (str "/native-callback")
  · cases isNative
    · exact Or.inl rfl
    · exact Or.inr rfl

/-- C8 witness: concrete redirect URIs for both environments. -/
theorem signInRedirectUri_cases_witness :
    OAuthManager.signInRedirectUri (str "https://app.example") false
      = str "https://app.example/auth/callback" ∧
    OAuthManager.signInRedirectUri (str "https://app.example") true
      = str "https://app.example/native-callback" := by
  constructor
  · rw [(signInRedirectUri_cases (str "https://app.example") false).1 rfl]
    decide
  · rw [(signInRedirectUri_cases (str "https://app.example") true).2.1 rfl]
    decide

/-- C9: from any prior storage state, `signOut()` clears the session, a
subsequent `getSession()` returns the absence marker (leaving the cleared
storage untouched), and a second `signOut()` from the signed-out state is
a no-op. -/
theorem signOut_then_getSession_absent (st : Storage)
    (userinfo : Str → UserinfoOutcome) :
    (MockProvider.getSession (MockProvider.signOut st) userinfo).2 = none ∧
    (MockProvider.getSession (MockProvider.signOut st) userinfo).1 = MockProvider.signOut st ∧
    MockProvider.signOut (MockProvider.signOut st) = MockProvider.signOut st :=
  ⟨rfl, rfl, rfl⟩

theorem createDespiaDeeplink_callback (dp : List (Str × Str)) (scheme : Str) :
    createDespiaDeeplink (str "callback") dp scheme =
      scheme ++ str "://oauth/callback?" ++ urlEncodeParams dp := by
  have h0 : createDespiaDeeplink (str "callback") dp scheme
      = scheme ++ str "://oauth/" ++ str "callback" ++ ['?'] ++ urlEncodeParams dp := rfl
  rw [h0]
  simp only [List.append_assoc]
  congr 1

/-- C2: `handleCallback` is a total function of its inputs (never throws);
whenever the provider callback rejects with a message, the result is the
Failed-branch destination — web
`appBaseUrl/auth/callback?error=` + encodeURIComponent(message), native
the deeplink carrying an `error` parameter — the stored session state is
untouched, and the outcome does not depend on the `setSession`
implementation at all (it is never invoked); moreover the repository's
provider rejects whenever the params carry a truthy `error` key. -/
theorem handleCallback_error_branch
    (appUrl scheme : Str) (providerCb : CallbackParams → Except Str AuthResult)
    (setSess setSess2 : TokenSet → Storage → Storage) (params : CallbackParams)
    (isNative : Bool) (st : Storage) (msg : Str)
    (h : providerCb params = Except.error msg) :
    (OAuthManager.handleCallback appUrl scheme providerCb setSess params isNative st).2 = st ∧
    OAuthManager.handleCallback appUrl scheme providerCb setSess params isNative st =
      OAuthManager.handleCallback appUrl scheme providerCb setSess2 params isNative st ∧
    (isNative = false →
      (OAuthManager.handleCallback appUrl scheme providerCb setSess params isNative st).1 =
        appUrl ++ str "/auth/callback?error=" ++ encodeURIComponent msg) ∧
    (isNative = true →
      (OAuthManager.handleCallback appUrl scheme providerCb setSess params isNative st).1 =
        createDespiaDeeplink (str "callback") [(str "error", msg)] scheme) ∧
    (∀ exchange e, params (str "error") = some e → e ≠ [] →
      MockProvider.handleCallback exchange params =
        Except.error ((truthyOpt (params (str "error_description"))).getD e)) := by
  refine ⟨?_, ?_, ?_, ?_, ?_⟩
  · simp only [OAuthManager.handleCallback, h]
    cases isNative <;> simp
  · simp only [OAuthManager.handleCallback, h]
  · intro hn
    subst hn
    simp only [OAuthManager.handleCallback, h, OAuthManager.WEB_CALLBACK_PATH]
    simp only [Bool.false_eq_true, if_false, List.append_assoc]
    congr 1
  · intro hn
    subst hn
    simp [OAuthManager.handleCallback, h]
  · intro exchange e he hne
    simp [MockProvider.handleCallback, truthyOpt, he, hne]

/-- C2 witness: `handleCallback` on params `error=access_denied` with the
repository's provider, web environment — resolves to the web error
destination and leaves storage untouched. -/
theorem handleCallback_error_branch_witness :
    (OAuthManager.handleCallback (str "https://app.example") (str "myapp")
        (MockProvider.handleCallback (fun _ _ => Except.error (str "x")))
        (MockProvider.setSession 0)
        (fun k => if k = str "error" then some (str "access_denied") else none)
        false Storage.empty).1
      = str "https://app.example/auth/callback?error=access_denied" ∧
    (OAuthManager.handleCallback (str "https://app.example") (str "myapp")
        (MockProvider.handleCallback (fun _ _ => Except.error (str "x")))
        (MockProvider.setSession 0)
        (fun k => if k = str "error" then some (str "access_denied") else none)
        false Storage.empty).2 = Storage.empty := by
  have h := handleCallback_error_branch (str "https://app.example") (str "myapp")
    (MockProvider.handleCallback (fun _ _ => Except.error (str "x")))
    (MockProvider.setSession 0) (MockProvider.setSession 0)
    (fun k => if k = str "error" then some (str "access_denied") else none)
    false Storage.empty (str "access_denied") rfl
  constructor
  · rw [h.2.2.1 rfl]
    decide
  · exact h.1

/-- C3 counterexample: a provider result whose `refresh_token` is present
but the empty string — the native success deeplink omits the
`refresh_token` parameter (JavaScript truthiness), so the destination is
not the claimed `...access_token=T&refresh_token=R` shape for R = "". -/
theorem handleCallback_empty_refresh_counterexample :
    (OAuthManager.handleCallback (str "https://app.example") (str "myapp")
        (fun _ => Except.ok ⟨str "T", some [], none⟩) (MockProvider.setSession 0)
        (fun _ => none) true Storage.empty).1
      = str "myapp://oauth/callback?access_token=T" ∧
    str "myapp://oauth/callback?access_token=T"
      ≠ str "myapp://oauth/callback?access_token=T&refresh_token=" := by
  constructor
  · decide
  · decide

/-- C3 (amended): on provider success, the web destination is exactly
`appBaseUrl/auth/callback` with no token parameters; the native
destination is exactly `scheme://oauth/callback?access_token=...` with
`refresh_token` appended exactly when the provider's `refresh_token` is
present and non-empty (omitted when absent or empty); and after a native
success a `getSession()` whose userinfo lookup succeeds returns a session
whose `access_token` equals the provider's. -/
theorem handleCallback_success_destinations
    (appUrl scheme : Str) (providerCb : CallbackParams → Except Str AuthResult)
    (params : CallbackParams) (st : Storage) (now : Nat) (r : AuthResult)
    (h : providerCb params = Except.ok r) :
    (OAuthManager.handleCallback appUrl scheme providerCb
        (MockProvider.setSession now) params false st).1 = appUrl ++ str "/auth/callback" ∧
    (∀ rt, r.refresh_token = some rt → rt ≠ [] →
      (OAuthManager.handleCallback appUrl scheme providerCb
          (MockProvider.setSession now) params true st).1
        = scheme ++ str "://oauth/callback?" ++
            urlEncodeParams [(str "access_token", r.access_token), (str "refresh_token", rt)]) ∧
    (r.refresh_token = none →
      (OAuthManager.handleCallback appUrl scheme providerCb
          (MockProvider.setSession now) params true st).1
        = scheme ++ str "://oauth/callback?" ++
            urlEncodeParams [(str "access_token", r.access_token)]) ∧
    (∀ userinfo u, userinfo r.access_token = UserinfoOutcome.ok u → r.access_token ≠ [] →
      ∃ sess, (MockProvider.getSession
          (OAuthManager.handleCallback appUrl scheme providerCb
            (MockProvider.setSession now) params true st).2 userinfo).2 = some sess ∧
        sess.access_token = r.access_token) := by
  refine ⟨?_, ?_, ?_, ?_⟩
  · simp [OAuthManager.handleCallback, h, OAuthManager.WEB_CALLBACK_PATH]
  · intro rt hrt hne
    simp [OAuthManager.handleCallback, h, hrt, truthyOpt, hne]
    rw [createDespiaDeeplink_callback]
    simp [List.append_assoc]
  · intro hrt
    simp [OAuthManager.handleCallback, h, hrt, truthyOpt]
    rw [createDespiaDeeplink_callback]
    simp [List.append_assoc]
  · intro userinfo u hu ha
    simp [OAuthManager.handleCallback, h, MockProvider.getSession, MockProvider.setSession,
      truthyOpt, ha, hu]

/-- C3 witness: scheme `myapp`, exchange result
`(access_token, refresh_token) = (T, R)` — concrete destinations and the
round-tripped session token. -/
theorem handleCallback_success_destinations_witness :
    (OAuthManager.handleCallback (str "https://app.example") (str "myapp")
        (fun _ => Except.ok ⟨str "T", some (str "R"), none⟩) (MockProvider.setSession 0)
        (fun _ => none) true Storage.empty).1
      = str "myapp://oauth/callback?access_token=T&refresh_token=R" ∧
    (OAuthManager.handleCallback (str "https://app.example") (str "myapp")
        (fun _ => Except.ok ⟨str "T", some (str "R"), none⟩) (MockProvider.setSession 0)
        (fun _ => none) false Storage.empty).1
      = str "https://app.example/auth/callback" ∧
    ((MockProvider.getSession
        (OAuthManager.handleCallback (str "https://app.example") (str "myapp")
          (fun _ => Except.ok ⟨str "T", some (str "R"), none⟩) (MockProvider.setSession 0)
          (fun _ => none) true Storage.empty).2
        (fun _ => UserinfoOutcome.ok ⟨str "demo_user_123", none, none, none⟩)).2).map
      Session.access_token = some (str "T") := by
  have h := handleCallback_success_destinations (str "https://app.example") (str "myapp")
    (fun _ => Except.ok ⟨str "T", some (str "R"), none⟩) (fun _ => none) Storage.empty 0
    ⟨str "T", some (str "R"), none⟩ rfl
  refine ⟨?_, ?_, ?_⟩
  · rw [h.2.1 (str "R") rfl (by decide)]
    decide
  · rw [h.1]
    decide
  · obtain ⟨sess, hs, hat⟩ := h.2.2.2
      (fun _ => UserinfoOutcome.ok ⟨str "demo_user_123", none, none, none⟩)
      ⟨str "demo_user_123", none, none, none⟩ rfl (by decide)
    rw [hs]
    simp [hat]

/-- C5: the callback flow never reads the `state` entry — two parameter
maps that agree on every key other than `state` produce the same provider
outcome and the same orchestrator destination and storage, for every
exchange behaviour, environment flag and prior storage state (no
comparison against any stored state value occurs). -/
theorem handleCallback_state_independent
    (exchange : Str → Str → Except Str AuthResult) (p1 p2 : CallbackParams)
    (h : ∀ k, k ≠ str "state" → p1 k = p2 k) :
    MockProvider.handleCallback exchange p1 = MockProvider.handleCallback exchange p2 ∧
    (∀ appUrl scheme setSess isNative st,
      OAuthManager.handleCallback appUrl scheme
          (MockProvider.handleCallback exchange) setSess p1 isNative st =
      OAuthManager.handleCallback appUrl scheme
          (MockProvider.handleCallback exchange) setSess p2 isNative st) := by
  have hcb : MockProvider.handleCallback exchange p1
      = MockProvider.handleCallback exchange p2 := by
    unfold MockProvider.handleCallback jsOrEmpty
    rw [h (str "error") (by decide), h (str "error_description") (by decide),
      h (str "code") (by decide), h (str "redirect_uri") (by decide)]
  refine ⟨hcb, ?_⟩
  intro appUrl scheme setSess isNative st
  unfold OAuthManager.handleCallback
  rw [hcb]

/-- C5 witness: params with `state=s1` versus params with no `state` at
all (same `code`) give identical provider outcomes. -/
theorem handleCallback_state_independent_witness :
    MockProvider.handleCallback (fun c _ => Except.ok ⟨c, none, none⟩)
        (fun k => if k = str "code" then some (str "abc")
                  else if k = str "state" then some (str "s1") else none)
      = MockProvider.handleCallback (fun c _ => Except.ok ⟨c, none, none⟩)
        (fun k => if k = str "code" then some (str "abc") else none) := by
  refine (handleCallback_state_independent (fun c _ => Except.ok ⟨c, none, none⟩) _ _ ?_).1
  intro k hk
  by_cases hc : k = str "code"
  · simp [hc]
  · simp [hc, hk]

/-- C4 counterexample: persisting a TokenSet with `expires_in = 0` at
time 5 writes no expiry (JavaScript truthiness skips `0`), so the
round-tripped session has `expires_at = none`, not
`some (5 + 0 * 1000)` as the claim (which explicitly includes
`expires_in = 0`) requires. -/
theorem setSession_expires_zero_counterexample :
    (MockProvider.getSession
        (MockProvider.setSession 5 ⟨str "T", none, some 0⟩ Storage.empty)
        (fun _ => UserinfoOutcome.ok ⟨str "demo_user_123", none, none, none⟩)).2
      = some ⟨str "T", none, none, ⟨str "demo_user_123", none, none, none⟩⟩ ∧
    (some (⟨str "T", none, none, ⟨str "demo_user_123", none, none, none⟩⟩ : Session)
      ≠ some ⟨str "T", none, some (5 + 0 * 1000), ⟨str "demo_user_123", none, none, none⟩⟩) := by
  constructor
  · decide
  · decide

/-- C4 (amended): `setSession(ts)` at time `now` followed by
`getSession()` (persistence available, userinfo lookup succeeding, and a
non-empty access token) yields a session whose `access_token` equals
`ts.access_token`, and whose `expires_at` equals exactly
`now + expires_in * 1000` whenever `ts.expires_in` is present and
non-zero; the expiry is computed at persist time only — `getSession`
takes no clock input at all, so it is never recomputed. -/
theorem setSession_getSession_roundtrip
    (st : Storage) (now : Nat) (ts : TokenSet) (userinfo : Str → UserinfoOutcome) (u : User)
    (ha : ts.access_token ≠ [])
    (hu : userinfo ts.access_token = UserinfoOutcome.ok u) :
    ∃ sess, (MockProvider.getSession (MockProvider.setSession now ts st) userinfo).2 = some sess ∧
      sess.access_token = ts.access_token ∧
      (∀ e, ts.expires_in = some e → 0 < e → sess.expires_at = some (now + e * 1000)) := by
  simp only [MockProvider.getSession, MockProvider.setSession, truthyOpt, if_neg ha, hu]
  refine ⟨_, rfl, rfl, ?_⟩
  intro e he hepos
  have hene : e ≠ 0 := by omega
  simp only [he, if_neg hene]
  have hnn := natToStr_ne_nil (now + e * 1000)
  simp only [if_neg hnn]
  rw [parse_natToStr]

/-- C4 witness: `expires_in = 2` persisted at time 5 round-trips to
`expires_at = 2005` and the original access token. -/
theorem setSession_getSession_roundtrip_witness :
    ((MockProvider.getSession
        (MockProvider.setSession 5 ⟨str "T", some (str "R"), some 2⟩ Storage.empty)
        (fun _ => UserinfoOutcome.ok ⟨str "demo_user_123", none, none, none⟩)).2).map
      (fun sess => (sess.access_token, sess.expires_at)) = some (str "T", some 2005) := by
  obtain ⟨sess, hs, hat, hexp⟩ := setSession_getSession_roundtrip Storage.empty 5
    ⟨str "T", some (str "R"), some 2⟩
    (fun _ => UserinfoOutcome.ok ⟨str "demo_user_123", none, none, none⟩)
    ⟨str "demo_user_123", none, none, none⟩ (by decide) rfl
  rw [hs]
  simp only [Option.map_some']
  rw [hat, hexp 2 rfl (by norm_num)]

/-- C10: `setSession` overwrites per key, not per record — a TokenSet
whose `refresh_token` (resp. `expires_in`) is absent or falsy leaves the
previously stored `oauth_refresh_token` (resp. `oauth_expires_at`)
untouched while always rewriting the access token, so a later
`getSession()` pairs the new access token with the stale refresh token;
`ClientSideMockProvider.setSession` behaves identically. -/
theorem setSession_per_key_frame (st : Storage) (now : Nat) (ts : TokenSet) :
    ((ts.refresh_token = none ∨ ts.refresh_token = some []) →
      (MockProvider.setSession now ts st).refresh_token = st.refresh_token) ∧
    ((ts.expires_in = none ∨ ts.expires_in = some 0) →
      (MockProvider.setSession now ts st).expires_at = st.expires_at) ∧
    (MockProvider.setSession now ts st).access_token = some ts.access_token ∧
    ClientSideMockProvider.setSession now ts st = MockProvider.setSession now ts st ∧
    (∀ userinfo u r0, ts.refresh_token = none → ts.access_token ≠ [] →
      st.refresh_token = some r0 → r0 ≠ [] →
      userinfo ts.access_token = UserinfoOutcome.ok u →
      ∃ sess, (MockProvider.getSession (MockProvider.setSession now ts st) userinfo).2 = some sess ∧
        sess.access_token = ts.access_token ∧ sess.refresh_token = some r0) := by
  refine ⟨?_, ?_, rfl, rfl, ?_⟩
  · intro hr
    cases hr with
    | inl h => simp [MockProvider.setSession, truthyOpt, h]
    | inr h => simp [MockProvider.setSession, truthyOpt, h]
  · intro he
    cases he with
    | inl h => simp [MockProvider.setSession, h]
    | inr h => simp [MockProvider.setSession, h]
  · intro userinfo u r0 hr ha hst hr0 hu
    simp only [MockProvider.getSession, MockProvider.setSession, truthyOpt, if_neg ha, hu, hr, hst]
    refine ⟨_, rfl, rfl, ?_⟩
    simp [if_neg hr0]

/-- C10 witness: persisting `(access_token = NEW, no refresh, no expiry)`
over a storage holding refresh token R0 and expiry string 99 keeps both
stale values and pairs NEW with R0 on read-back. -/
theorem setSession_per_key_frame_witness :
    MockProvider.setSession 0 ⟨str "NEW", none, none⟩
        ⟨some (str "OLD"), some (str "R0"), some (str "99")⟩
      = ⟨some (str "NEW"), some (str "R0"), some (str "99")⟩ ∧
    ((MockProvider.getSession
        (MockProvider.setSession 0 ⟨str "NEW", none, none⟩
          ⟨some (str "OLD"), some (str "R0"), some (str "99")⟩)
        (fun _ => UserinfoOutcome.ok ⟨str "demo_user_123", none, none, none⟩)).2).map
      (fun sess => (sess.access_token, sess.refresh_token))
      = some (str "NEW", some (str "R0")) := by
  constructor
  · decide
  · obtain ⟨sess, hs, hat, hrt⟩ :=
      (setSession_per_key_frame ⟨some (str "OLD"), some (str "R0"), some (str "99")⟩ 0
        ⟨str "NEW", none, none⟩).2.2.2.2
      (fun _ => UserinfoOutcome.ok ⟨str "demo_user_123", none, none, none⟩)
      ⟨str "demo_user_123", none, none, none⟩ (str "R0") rfl (by decide) rfl (by decide) rfl
    rw [hs]
    simp only [Option.map_some']
    rw [hat, hrt]

/-- C1 counterexample: the demo provider's POST `/token` endpoint never
consults the authorization-code store — exchanging the same code a second
time (even past the 10-minute code lifetime: the second call happens at
11 minutes) returns a fresh success token response, not an error. -/
theorem token_endpoint_replay_counterexample :
    (tokenHandler (some (str "demo_code_1")) (some (str "authorization_code")) none none 0
        (str "at1") (str "rt1") []).1
      = TokenResult.ok (str "at1") (str "rt1") (str "Bearer") 3600 ∧
    (tokenHandler (some (str "demo_code_1")) (some (str "authorization_code")) none none
        (11 * 60 * 1000) (str "at2") (str "rt2")
        (tokenHandler (some (str "demo_code_1")) (some (str "authorization_code")) none none 0
          (str "at1") (str "rt1") []).2).1
      = TokenResult.ok (str "at2") (str "rt2") (str "Bearer") 3600 := by
  constructor
  · decide
  · decide

/-- C1 (amended): single use and the 10-minute lifetime are enforced at
the POST `/authorize` redemption step, not at `/token`: a stored,
unexpired code redeems once into a redirect and is deleted, so presenting
it again is rejected with `Invalid authorization code`; a code past its
`expiresAt` is rejected with `Authorization code expired` (and deleted);
`GET /authorize` stores codes with `expiresAt = now + 10 * 60 * 1000`;
and POST `/token` returns a fresh success for any non-empty code under
`grant_type = authorization_code`, regardless of the token store. -/
theorem authorize_code_single_use_and_expiry
    (c ru : Str) (state1 state2 : Option Str) (now1 now2 : Nat)
    (store : StoreMap AuthCodeEntry) (entry : AuthCodeEntry)
    (hc : c ≠ []) (hru : ru ≠ [])
    (hlook : storeLookup store c = some entry) :
    (now1 ≤ entry.expiresAt →
      authorizePostHandler (some c) state1 (some ru) now1 store
        = (.redirectTo (ru ++ ['?'] ++
              urlEncodeParams [(str "code", c), (str "state", jsOrEmpty state1)]),
            storeErase store c) ∧
      authorizePostHandler (some c) state2 (some ru) now2 (storeErase store c)
        = (.badRequest (str "Invalid authorization code"), storeErase store c)) ∧
    (now1 > entry.expiresAt →
      authorizePostHandler (some c) state1 (some ru) now1 store
        = (.badRequest (str "Authorization code expired"), storeErase store c)) ∧
    (∀ resp_state scope code2 store2,
      (authorizeHandler (some (str "demo-client-id")) (some ru) (some (str "code"))
          resp_state scope now1 code2 store2).2
        = storeSet store2 code2 ⟨code2, ru, now1 + 10 * 60 * 1000⟩) ∧
    (∀ store3 at_ rt_,
      tokenHandler (some c) (some (str "authorization_code")) none none now2 at_ rt_ store3
        = (.ok at_ rt_ (str "Bearer") 3600,
            storeSet store3 at_ ⟨at_, rt_, now2 + 3600 * 1000⟩)) := by
  refine ⟨?_, ?_, ?_, ?_⟩
  · intro hfresh
    constructor
    · simp [authorizePostHandler, truthyOpt, hc, hru, hlook, Nat.not_lt.mpr hfresh]
    · simp [authorizePostHandler, truthyOpt, hc, hru, storeLookup_erase_self]
  · intro hexp
    simp [authorizePostHandler, truthyOpt, hc, hru, hlook, hexp]
  · intro resp_state scope code2 store2
    have h1 : truthyOpt (some (str "demo-client-id")) = some (str "demo-client-id") := by decide
    have h2 : truthyOpt (some (str "code")) = some (str "code") := by decide
    have h3 : truthyOpt (some ru) = some ru := by simp [truthyOpt, hru]
    simp [authorizeHandler, h1, h2, h3]
  · intro store3 at_ rt_
    simp [tokenHandler, truthyOpt, hc]

/-- C1 witness: code `k` stored with a 10-minute expiry redeems once at
POST `/authorize` and is rejected as invalid when replayed. -/
theorem authorize_code_single_use_witness :
    authorizePostHandler (some (str "k")) (some (str "s")) (some (str "https://cb")) 0
        [(str "k", ⟨str "k", str "https://cb", 600000⟩)]
      = (.redirectTo (str "https://cb?code=k&state=s"), []) ∧
    authorizePostHandler (some (str "k")) (some (str "s")) (some (str "https://cb")) 0 []
      = (.badRequest (str "Invalid authorization code"), []) := by
  have h := authorize_code_single_use_and_expiry (str "k") (str "https://cb")
    (some (str "s")) (some (str "s")) 0 0
    [(str "k", ⟨str "k", str "https://cb", 600000⟩)] ⟨str "k", str "https://cb", 600000⟩
    (by decide) (by decide) (by decide)
  obtain ⟨hfst, hsnd⟩ := h.1 (by norm_num)
  have herase : storeErase [(str "k", (⟨str "k", str "https://cb", 600000⟩ : AuthCodeEntry))]
      (str "k") = [] := by decide
  rw [herase] at hfst hsnd
  constructor
  · exact hfst.trans (by decide)
  · exact hsnd

end OAuthKit
